import Mathlib

/-!
Verification of the Wazuh MCP threat-hunting bridge (src/main.py).

The program is a small synchronous bridge: `get_token` exchanges static
credentials for a bearer token (returning the Python value `None` on any
failure), and two zero-argument tools, `list_agents` and
`get_infrastructure_status`, each acquire a fresh token, issue one
downstream HTTP GET, and normalize every outcome into a result string.

Shallow embedding choices:
- JSON values are an inductive `Json`; numbers are restricted to integers
  (all numeric data in the spec scenarios are integer counters).
- `Response` models the object returned by `requests.get`: status code,
  raw body text, and the outcome of calling `.json()` on it (either a
  parsed value or the description of the raised decode exception). The
  network call itself is modelled as `Except String Response`: either a
  transport exception description or a response.
- Python `None` is the JSON value `Json.null`; thus `get_token` returns
  `Json`, with `Json.null` as the absence marker, exactly as in Python
  where `return None` and a JSON `null` token value coincide.
- Python truthiness (`if not token:`) is `Json.truthy`.
- `resp.json()["data"]["token"]` subscripting is `Json.index` (raises on
  a missing key or a non-object); `d.get(key, default)` is `Json.get`
  (raises AttributeError on a non-object, else total with the default).
- `json.dumps(x, indent=2, ensure_ascii=False)` is `Json.dumps2 x 0`,
  reproducing CPython output: 2-space indentation, `", "`-free item
  separators with newlines, `[]` and empty-object compaction, short
  escapes for the standard control characters, `\u00xx` for the rest
  below 0x20, and all other characters (ASCII or not) passed through.
- Each tool is split, as the code is, into the token check and the query
  body; `ToolResult` records the returned string and, when a downstream
  request was issued, the bearer token attached to it.
- The keyword arguments of each `requests.get` call (URL, basic auth,
  certificate verification, timeout, query params) are recorded in a
  `RequestSpec` value per call site.
-/

namespace WazuhMCP

/-- JSON values as produced by parsing a response body. Numbers are
restricted to integers, which covers every payload in scope. -/
inductive Json where
  | null : Json
  | bool : Bool → Json
  | num : Int → Json
  | str : String → Json
  | arr : List Json → Json
  | obj : List (String × Json) → Json

/-- Python truthiness of a JSON value (`Json.null` plays the role of
the Python `None` object). -/
def Json.truthy : Json → Bool
  | .null => false
  | .bool b => b
  | .num n => n != 0
  | .str s => s != ""
  | .arr l => !l.isEmpty
  | .obj l => !l.isEmpty

/-- Python subscripting `j[key]`: raises KeyError on a missing key and
TypeError when the value is not a dict. -/
def Json.index (j : Json) (key : String) : Except String Json :=
  match j with
  | .obj pairs =>
    match List.lookup key pairs with
    | some v => Except.ok v
    | none => Except.error ("KeyError: " ++ key)
  | _ => Except.error "TypeError: value is not subscriptable by string"

/-- Python `j.get(key, dflt)`: total on dicts, raises AttributeError on
everything else. -/
def Json.get (j : Json) (key : String) (dflt : Json) : Except String Json :=
  match j with
  | .obj pairs => Except.ok ((List.lookup key pairs).getD dflt)
  | _ => Except.error "AttributeError: value has no attribute get"

/-- A run of `n` spaces, as produced by the json module for indentation. -/
def indentStr (n : Nat) : String := String.mk (List.replicate n ' ')

/-- Lowercase hexadecimal digit, for `\u00xx` escapes. -/
def hexDigit (n : Nat) : Char := if n < 10 then Char.ofNat (48 + n) else Char.ofNat (87 + n)

/-- Escaping of a single character inside a JSON string literal with
`ensure_ascii=False`: only the quote, the backslash and control
characters are escaped; every other character, ASCII or not, is kept. -/
def escapeChar (c : Char) : String :=
  if c = '"' then "\\\""
  else if c = '\\' then "\\\\"
  else if c = '\n' then "\\n"
  else if c = '\t' then "\\t"
  else if c = '\r' then "\\r"
  else if c = '\x08' then "\\b"
  else if c = '\x0c' then "\\f"
  else if c.toNat < 32 then
    "\\u00" ++ String.singleton (hexDigit (c.toNat / 16)) ++ String.singleton (hexDigit (c.toNat % 16))
  else String.singleton c

/-- Escaping of a full string body. -/
def escapeString (s : String) : String :=
  String.join (s.data.map escapeChar)

mutual

/-- `json.dumps(j, indent=2, ensure_ascii=False)` at nesting level `lv`. -/
def Json.dumps2 : Json → Nat → String
  | .null, _ => "null"
  | .bool true, _ => "true"
  | .bool false, _ => "false"
  | .num n, _ => toString n
  | .str s, _ => "\"" ++ escapeString s ++ "\""
  | .arr [], _ => "[]"
  | .arr (x :: xs), lv =>
      "[\n" ++ dumpsItems (x :: xs) (lv + 1) ++ "\n" ++ indentStr (2 * lv) ++ "]"
  | .obj [], _ => "\x7b\x7d"
  | .obj (p :: ps), lv =>
      "\x7b\n" ++ dumpsPairs (p :: ps) (lv + 1) ++ "\n" ++ indentStr (2 * lv) ++ "\x7d"

/-- Comma-and-newline separated array items, each on its own indented line. -/
def dumpsItems : List Json → Nat → String
  | [], _ => ""
  | [x], lv => indentStr (2 * lv) ++ Json.dumps2 x lv
  | x :: y :: rest, lv =>
      indentStr (2 * lv) ++ Json.dumps2 x lv ++ ",\n" ++ dumpsItems (y :: rest) lv

/-- Comma-and-newline separated object entries, each on its own indented line. -/
def dumpsPairs : List (String × Json) → Nat → String
  | [], _ => ""
  | [(k, v)], lv => indentStr (2 * lv) ++ "\"" ++ escapeString k ++ "\": " ++ Json.dumps2 v lv
  | (k, v) :: q :: rest, lv =>
      indentStr (2 * lv) ++ "\"" ++ escapeString k ++ "\": " ++ Json.dumps2 v lv ++ ",\n" ++ dumpsPairs (q :: rest) lv

end

/-- The observable part of a `requests` response object: status code, raw
body text, and the outcome of calling `.json()` on it (parsed value, or
the description of the decode exception it raises). -/
structure Response where
  status_code : Nat
  text : String
  json : Except String Json

/-- An upstream HTTP interaction: either a transport exception with its
description, or a delivered response. -/
abbrev HttpOutcome := Except String Response

/-- `get_token` from src/main.py: on HTTP 200 return
`resp.json()["data"]["token"]`; on any non-200 status return None; any
exception raised inside the try block (transport, JSON decode, missing
key, wrong shape) is caught and None is returned. `Json.null` is the
Python `None`. -/
def get_token (auth : HttpOutcome) : Json :=
  match auth with
  | .error _ => Json.null
  | .ok resp =>
    if resp.status_code = 200 then
      match resp.json with
      | .error _ => Json.null
      | .ok body =>
        match body.index "data" with
        | .error _ => Json.null
        | .ok d =>
          match d.index "token" with
          | .error _ => Json.null
          | .ok t => t
    else Json.null

/-- Result of one tool invocation: the string handed back to the hosting
runtime, and the bearer token attached to the downstream request when one
was issued (`none` when the tool short-circuited before the query). -/
structure ToolResult where
  output : String
  downstreamToken : Option Json

/-- The try block of `list_agents` (src/main.py lines 53-62), given the
outcome of `requests.get(f"{BASE_URL}/agents", ...)`: on 200, serialize
`resp.json().get("data", dict()).get("affected_items", list())` with
`json.dumps(..., indent=2, ensure_ascii=False)`; on non-200 embed the
status code and the raw body; any exception `e` becomes the string
`"發生例外錯誤: " + str(e)`. -/
def listAgentsQuery (q : HttpOutcome) : String :=
  match q with
  | .error e => "發生例外錯誤: " ++ e
  | .ok resp =>
    if resp.status_code = 200 then
      match resp.json with
      | .error e => "發生例外錯誤: " ++ e
      | .ok body =>
        match body.get "data" (Json.obj []) with
        | .error e => "發生例外錯誤: " ++ e
        | .ok d =>
          match d.get "affected_items" (Json.arr []) with
          | .error e => "發生例外錯誤: " ++ e
          | .ok items => Json.dumps2 items 0
    else "API 回傳錯誤: " ++ toString resp.status_code ++ " - " ++ resp.text

/-- The tool `list_agents` (src/main.py lines 43-62): acquire a fresh
token; on a falsy token return the fixed auth-error string without any
downstream call; otherwise issue the query with `Bearer token` and
normalize its outcome with `listAgentsQuery`. -/
def list_agents (auth q : HttpOutcome) : ToolResult :=
  let token := get_token auth
  if token.truthy then
    { output := listAgentsQuery q, downstreamToken := some token }
  else
    { output := "錯誤: 無法連線至 Wazuh API，請檢查帳號密碼或網路連線。", downstreamToken := none }

/-- The try block of `get_infrastructure_status` (src/main.py lines
74-83), given the outcome of
`requests.get(f"{BASE_URL}/agents/summary/status", ...)`: on 200 return
the labelled report around `resp.json().get("data", dict())`; on non-200
return `"查詢失敗: " + status_code` (the body text is not embedded); any
exception `e` becomes `"發生錯誤: " + str(e)`. -/
def statusQuery (q : HttpOutcome) : String :=
  match q with
  | .error e => "發生錯誤: " ++ e
  | .ok resp =>
    if resp.status_code = 200 then
      match resp.json with
      | .error e => "發生錯誤: " ++ e
      | .ok body =>
        match body.get "data" (Json.obj []) with
        | .error e => "發生錯誤: " ++ e
        | .ok summary => "【資安態勢報告】\n" ++ Json.dumps2 summary 0
    else "查詢失敗: " ++ toString resp.status_code

/-- The tool `get_infrastructure_status` (src/main.py lines 64-83). -/
def get_infrastructure_status (auth q : HttpOutcome) : ToolResult :=
  let token := get_token auth
  if token.truthy then
    { output := statusQuery q, downstreamToken := some token }
  else
    { output := "錯誤: 無法連線至 Wazuh API", downstreamToken := none }

/-- Keyword arguments of a `requests.get` call site. -/
structure RequestSpec where
  url : String
  usesBasicAuth : Bool
  verify : Bool
  timeout : Option Nat
  params : List (String × String)

/-- `BASE_URL = f"https://{HOST}:{PORT}"`. -/
def BASE_URL (host port : String) : String := "https://" ++ host ++ ":" ++ port

/-- The authentication call of `get_token` (src/main.py lines 29-34):
basic auth, `verify=False`, `timeout=5`, no query params. -/
def authRequest (host port : String) : RequestSpec :=
  { url := BASE_URL host port ++ "/security/user/authenticate"
    usesBasicAuth := true
    verify := false
    timeout := some 5
    params := [] }

/-- The query call of `list_agents` (src/main.py line 54): bearer auth,
`verify=False`, no timeout argument, `params={"pretty": "true"}`. -/
def agentsRequest (host port : String) : RequestSpec :=
  { url := BASE_URL host port ++ "/agents"
    usesBasicAuth := false
    verify := false
    timeout := none
    params := [("pretty", "true")] }

/-- The query call of `get_infrastructure_status` (src/main.py line 76):
bearer auth, `verify=False`, no timeout argument, no query params. -/
def statusRequest (host port : String) : RequestSpec :=
  { url := BASE_URL host port ++ "/agents/summary/status"
    usesBasicAuth := false
    verify := false
    timeout := none
    params := [] }

/-- Substring containment on strings, via infixes of character lists. -/
def strContains (s sub : String) : Prop := sub.data <:+: s.data

instance (s sub : String) : Decidable (strContains s sub) :=
  inferInstanceAs (Decidable (sub.data <:+: s.data))

/- Concrete upstream outcomes used to instantiate the theorems. -/

/-- Authentication body of spec Scenario 1. -/
def jsonOK : Json := Json.obj [("data", Json.obj [("token", Json.str "abc123")])]

/-- A 200 authentication response carrying token `abc123`. -/
def respOK : Response := { status_code := 200, text := "", json := Except.ok jsonOK }

/-- Successful authentication outcome. -/
def authOK : HttpOutcome := Except.ok respOK

/-- A second successful authentication outcome with a different token. -/
def authOK2 : HttpOutcome :=
  Except.ok { status_code := 200, text := ""
              json := Except.ok (Json.obj [("data", Json.obj [("token", Json.str "zzz999")])]) }

/-- A 401 authentication response (spec Scenario 3). -/
def resp401 : Response := { status_code := 401, text := "Unauthorized", json := Except.error "Expecting value" }

/-- Authentication rejected with 401. -/
def authBad : HttpOutcome := Except.ok resp401

/-- Authentication transport failure (spec Scenario 5). -/
def authRefused : HttpOutcome := Except.error "connection refused"

/-- Agents body of spec Scenario 2. -/
def agentsJson : Json :=
  Json.obj [("data", Json.obj [("affected_items",
    Json.arr [Json.obj [("id", Json.str "001"), ("status", Json.str "active")]])])]

/-- The `affected_items` sequence of `agentsJson`. -/
def agentsItems : Json :=
  Json.arr [Json.obj [("id", Json.str "001"), ("status", Json.str "active")]]

/-- A 200 response to the agents query. -/
def respAgents : Response := { status_code := 200, text := "ok", json := Except.ok agentsJson }

/-- Summary body of spec Scenario 4. -/
def summaryJson : Json :=
  Json.obj [("data", Json.obj [("Active", Json.num 5), ("Disconnected", Json.num 1)])]

/-- The counters mapping of `summaryJson`. -/
def summaryCounters : Json := Json.obj [("Active", Json.num 5), ("Disconnected", Json.num 1)]

/-- A 200 response to the status query. -/
def respSummary : Response := { status_code := 200, text := "ok", json := Except.ok summaryJson }

/-- A 500 response with body `boom`. -/
def resp500 : Response := { status_code := 500, text := "boom", json := Except.error "Expecting value" }

/-- A 200 response whose JSON object has no `data` field. -/
def respNoData : Response :=
  { status_code := 200, text := "", json := Except.ok (Json.obj [("message", Json.str "hi")]) }

/-- A 200 response whose `data` object has no `affected_items` field. -/
def respNoItems : Response :=
  { status_code := 200, text := "", json := Except.ok (Json.obj [("data", Json.obj [("total", Json.num 0)])]) }

/- Helper lemmas about substring containment. -/

/-- Explicit-witness introduction rule for `strContains`. -/
theorem strContains_intro (s sub : String) (u v : List Char)
    (h : u ++ sub.data ++ v = s.data) : strContains s sub :=
  ⟨u, v, h⟩

/-- Every string contains itself. -/
theorem strContains_self (s : String) : strContains s s :=
  ⟨[], [], by simp⟩

/-- Containment is preserved by prepending. -/
theorem strContains_left (a s sub : String) (h : strContains s sub) :
    strContains (a ++ s) sub := by
  obtain ⟨u, v, huv⟩ := h
  exact ⟨a.data ++ u, v, by rw [String.data_append, ← huv]; simp⟩

/-- Containment is preserved by appending. -/
theorem strContains_right (s b sub : String) (h : strContains s sub) :
    strContains (s ++ b) sub := by
  obtain ⟨u, v, huv⟩ := h
  exact ⟨u, v ++ b.data, by rw [String.data_append, ← huv]; simp⟩

/-- The serialization of a nonempty item list contains the serialization
of each of its members. -/
theorem dumpsItems_contains (x : Json) :
    ∀ (l : List Json) (lv : Nat), x ∈ l →
      strContains (dumpsItems l lv) (Json.dumps2 x lv)
  | [], _, hx => absurd hx (List.not_mem_nil x)
  | [a], lv, hx => by
      have hxa : x = a := by simpa using hx
      subst hxa
      show strContains (indentStr (2 * lv) ++ Json.dumps2 x lv) (Json.dumps2 x lv)
      exact strContains_left _ _ _ (strContains_self _)
  | a :: b :: rest, lv, hx => by
      rcases List.mem_cons.mp hx with hxa | hmem
      · subst hxa
        show strContains
          (indentStr (2 * lv) ++ Json.dumps2 x lv ++ ",\n" ++ dumpsItems (b :: rest) lv)
          (Json.dumps2 x lv)
        exact strContains_right _ _ _ (strContains_right _ _ _
          (strContains_left _ _ _ (strContains_self _)))
      · have ih := dumpsItems_contains x (b :: rest) lv hmem
        show strContains
          (indentStr (2 * lv) ++ Json.dumps2 a lv ++ ",\n" ++ dumpsItems (b :: rest) lv)
          (Json.dumps2 x lv)
        exact strContains_left _ _ _ ih

/-- The serialization of a nonempty object entry list contains, for each
entry, the quoted key, the separator and the serialized value. -/
theorem dumpsPairs_contains (k : String) (v : Json) :
    ∀ (l : List (String × Json)) (lv : Nat), (k, v) ∈ l →
      strContains (dumpsPairs l lv)
        ("\"" ++ escapeString k ++ "\": " ++ Json.dumps2 v lv)
  | [], _, hx => absurd hx (List.not_mem_nil (k, v))
  | [(k0, v0)], lv, hx => by
      have hkv : k = k0 ∧ v = v0 := by simpa [Prod.ext_iff] using hx
      obtain ⟨hk, hv⟩ := hkv
      subst hk; subst hv
      refine strContains_intro _ _ (indentStr (2 * lv)).data [] ?_
      simp [dumpsPairs, String.data_append]
  | (k0, v0) :: q :: rest, lv, hx => by
      rcases List.mem_cons.mp hx with hkv | hmem
      · have hk : k = k0 ∧ v = v0 := by simpa [Prod.ext_iff] using hkv
        obtain ⟨hk1, hk2⟩ := hk
        subst hk1; subst hk2
        refine strContains_intro _ _ (indentStr (2 * lv)).data
          (",\n".data ++ (dumpsPairs (q :: rest) lv).data) ?_
        simp [dumpsPairs, String.data_append]
      · have ih := dumpsPairs_contains k v (q :: rest) lv hmem
        show strContains
          (indentStr (2 * lv) ++ "\"" ++ escapeString k0 ++ "\": " ++ Json.dumps2 v0 lv
            ++ ",\n" ++ dumpsPairs (q :: rest) lv)
          ("\"" ++ escapeString k ++ "\": " ++ Json.dumps2 v lv)
        exact strContains_left _ _ _ ih

/- Claim theorems. -/

/-- C1: `get_token` is total over all upstream outcomes: on HTTP 200 it
returns the value at the nested path `data.token` of the JSON body; on
any other outcome — non-200 status, transport exception, malformed JSON,
or a missing field — it returns the absence marker (the Python `None`,
i.e. `Json.null`) and never raises past its boundary (the embedding is a
total function). -/
theorem get_token_spec (auth : HttpOutcome) :
    (∀ resp body d t, auth = Except.ok resp → resp.status_code = 200 →
        resp.json = Except.ok body → Json.index body "data" = Except.ok d →
        Json.index d "token" = Except.ok t → get_token auth = t)
    ∧ (∀ e, auth = Except.error e → get_token auth = Json.null)
    ∧ (∀ resp, auth = Except.ok resp → resp.status_code ≠ 200 → get_token auth = Json.null)
    ∧ (∀ resp e, auth = Except.ok resp → resp.json = Except.error e → get_token auth = Json.null)
    ∧ (∀ resp body e, auth = Except.ok resp → resp.json = Except.ok body →
        Json.index body "data" = Except.error e → get_token auth = Json.null)
    ∧ (∀ resp body d e, auth = Except.ok resp → resp.json = Except.ok body →
        Json.index body "data" = Except.ok d → Json.index d "token" = Except.error e →
        get_token auth = Json.null) := by
  refine ⟨?_, ?_, ?_, ?_, ?_, ?_⟩
  · rintro resp body d t rfl h200 hj hd ht
    simp [get_token, h200, hj, hd, ht]
  · rintro e rfl
    rfl
  · rintro resp rfl hne
    simp [get_token, hne]
  · rintro resp e rfl hj
    by_cases h200 : resp.status_code = 200
    · simp [get_token, h200, hj]
    · simp [get_token, h200]
  · rintro resp body e rfl hj hd
    by_cases h200 : resp.status_code = 200
    · simp [get_token, h200, hj, hd]
    · simp [get_token, h200]
  · rintro resp body d e rfl hj hd ht
    by_cases h200 : resp.status_code = 200
    · simp [get_token, h200, hj, hd, ht]
    · simp [get_token, h200]

/-- Witness for C1 on the concrete scenarios: a 200 body with token
`abc123`, a 401 rejection, and a refused connection. -/
theorem get_token_spec_witness :
    get_token authOK = Json.str "abc123"
    ∧ get_token authBad = Json.null
    ∧ get_token authRefused = Json.null :=
  ⟨(get_token_spec authOK).1 respOK jsonOK (Json.obj [("token", Json.str "abc123")])
      (Json.str "abc123") rfl rfl rfl rfl rfl,
   (get_token_spec authBad).2.2.1 resp401 rfl (by decide),
   (get_token_spec authRefused).2.1 "connection refused" rfl⟩

/-- C2: whenever `get_token` returned the absence marker, both tools
short-circuit: each returns its fixed authentication-error string and
issues no downstream query (no token is attached to any request). -/
theorem no_token_short_circuit (auth q : HttpOutcome)
    (h : get_token auth = Json.null) :
    (list_agents auth q).output = "錯誤: 無法連線至 Wazuh API，請檢查帳號密碼或網路連線。"
    ∧ (list_agents auth q).downstreamToken = none
    ∧ (get_infrastructure_status auth q).output = "錯誤: 無法連線至 Wazuh API"
    ∧ (get_infrastructure_status auth q).downstreamToken = none := by
  have ht : Json.truthy (get_token auth) = false := by rw [h]; rfl
  simp [list_agents, get_infrastructure_status, ht]

/-- Witness for C2: after a 401 authentication response, both tools
return their authentication-error strings and skip the query. -/
theorem no_token_short_circuit_witness :
    (list_agents authBad authRefused).output = "錯誤: 無法連線至 Wazuh API，請檢查帳號密碼或網路連線。"
    ∧ (list_agents authBad authRefused).downstreamToken = none
    ∧ (get_infrastructure_status authBad authRefused).output = "錯誤: 無法連線至 Wazuh API"
    ∧ (get_infrastructure_status authBad authRefused).downstreamToken = none :=
  no_token_short_circuit authBad authRefused rfl

/-- C3 counterexample: with a valid token and a 500 response whose body
is `boom`, `get_infrastructure_status` returns `查詢失敗: 500`, which does
not contain the response body text — refuting the claim that both tools
embed the exact body on every non-200 query response. -/
theorem nonok_embeds_body_cex :
    (get_infrastructure_status authOK (Except.ok resp500)).output = "查詢失敗: 500"
    ∧ ¬ strContains (get_infrastructure_status authOK (Except.ok resp500)).output "boom" := by
  exact ⟨by decide, by decide⟩

/-- C3 (amended): for every non-200 response to the downstream query,
`list_agents` returns a string containing the exact status code and the
exact response body text, while `get_infrastructure_status` returns a
string containing the exact status code only: the fixed failure prefix
followed by the status code, without the body text. -/
theorem nonok_status_embedding (auth q : HttpOutcome) (resp : Response)
    (htok : Json.truthy (get_token auth) = true)
    (hq : q = Except.ok resp) (hne : resp.status_code ≠ 200) :
    strContains (list_agents auth q).output (toString resp.status_code)
    ∧ strContains (list_agents auth q).output resp.text
    ∧ (get_infrastructure_status auth q).output = "查詢失敗: " ++ toString resp.status_code := by
  subst hq
  have h1 : (list_agents auth (Except.ok resp)).output
      = "API 回傳錯誤: " ++ toString resp.status_code ++ " - " ++ resp.text := by
    simp [list_agents, htok, listAgentsQuery, hne]
  have h2 : (get_infrastructure_status auth (Except.ok resp)).output
      = "查詢失敗: " ++ toString resp.status_code := by
    simp [get_infrastructure_status, htok, statusQuery, hne]
  refine ⟨?_, ?_, h2⟩
  · rw [h1]
    exact strContains_right _ _ _ (strContains_right _ _ _
      (strContains_left _ _ _ (strContains_self _)))
  · rw [h1]
    exact strContains_left _ _ _ (strContains_self _)

/-- Witness for the amended C3 at a concrete 500 response with body
`boom`. -/
theorem nonok_status_embedding_witness :
    strContains (list_agents authOK (Except.ok resp500)).output (toString (500 : Nat))
    ∧ strContains (list_agents authOK (Except.ok resp500)).output "boom"
    ∧ (get_infrastructure_status authOK (Except.ok resp500)).output
        = "查詢失敗: " ++ toString (500 : Nat) :=
  nonok_status_embedding authOK (Except.ok resp500) resp500 rfl rfl (by decide)

/-- C4: with a usable token, both tools convert every transport exception
and every parse exception (JSON decode failure, wrong payload shape) into
their catch-all string embedding the exception description; the embedded
tools are total functions, so every upstream outcome yields a string and
no exception propagates to the hosting runtime. -/
theorem exception_to_string (auth q : HttpOutcome)
    (htok : Json.truthy (get_token auth) = true) :
    (∀ e, q = Except.error e →
        (list_agents auth q).output = "發生例外錯誤: " ++ e
        ∧ (get_infrastructure_status auth q).output = "發生錯誤: " ++ e)
    ∧ (∀ resp e, q = Except.ok resp → resp.status_code = 200 → resp.json = Except.error e →
        (list_agents auth q).output = "發生例外錯誤: " ++ e
        ∧ (get_infrastructure_status auth q).output = "發生錯誤: " ++ e)
    ∧ (∀ resp body e, q = Except.ok resp → resp.status_code = 200 →
        resp.json = Except.ok body → Json.get body "data" (Json.obj []) = Except.error e →
        (list_agents auth q).output = "發生例外錯誤: " ++ e
        ∧ (get_infrastructure_status auth q).output = "發生錯誤: " ++ e) := by
  refine ⟨?_, ?_, ?_⟩
  · rintro e rfl
    exact ⟨by simp [list_agents, htok, listAgentsQuery],
           by simp [get_infrastructure_status, htok, statusQuery]⟩
  · rintro resp e rfl h200 hj
    exact ⟨by simp [list_agents, htok, listAgentsQuery, h200, hj],
           by simp [get_infrastructure_status, htok, statusQuery, h200, hj]⟩
  · rintro resp body e rfl h200 hj hd
    exact ⟨by simp [list_agents, htok, listAgentsQuery, h200, hj, hd],
           by simp [get_infrastructure_status, htok, statusQuery, h200, hj, hd]⟩

/-- Witness for C4: a refused connection on the query call is reported
as text by both tools. -/
theorem exception_to_string_witness :
    (list_agents authOK (Except.error "connection refused")).output
        = "發生例外錯誤: " ++ "connection refused"
    ∧ (get_infrastructure_status authOK (Except.error "connection refused")).output
        = "發生錯誤: " ++ "connection refused" :=
  (exception_to_string authOK (Except.error "connection refused") rfl).1
    "connection refused" rfl

/-- C5: for every 200 agents response with well-formed JSON, the output
of `list_agents` is exactly the value at `data.affected_items` serialized
by the embedded `json.dumps` with indent 2 and `ensure_ascii=False`;
hence, when that value is an array, the output contains the serialization
of every record of the array (in the received order, as the serializer
folds the list verbatim), and characters above ASCII are never escaped. -/
theorem list_agents_success (auth q : HttpOutcome) (resp : Response) (body d items : Json)
    (htok : Json.truthy (get_token auth) = true)
    (hq : q = Except.ok resp) (h200 : resp.status_code = 200)
    (hjson : resp.json = Except.ok body)
    (hdata : Json.get body "data" (Json.obj []) = Except.ok d)
    (hitems : Json.get d "affected_items" (Json.arr []) = Except.ok items) :
    (list_agents auth q).output = Json.dumps2 items 0
    ∧ (∀ l, items = Json.arr l → ∀ x ∈ l,
        strContains (list_agents auth q).output (Json.dumps2 x 1))
    ∧ (∀ c : Char, 127 < c.toNat → escapeChar c = String.singleton c) := by
  subst hq
  have h1 : (list_agents auth (Except.ok resp)).output = Json.dumps2 items 0 := by
    simp [list_agents, htok, listAgentsQuery, h200, hjson, hdata, hitems]
  refine ⟨h1, ?_, ?_⟩
  · rintro l rfl x hx
    rw [h1]
    rcases l with _ | ⟨a, rest⟩
    · exact absurd hx (List.not_mem_nil x)
    · show strContains ("[\n" ++ dumpsItems (a :: rest) 1 ++ "\n" ++ indentStr 0 ++ "]")
        (Json.dumps2 x 1)
      exact strContains_right _ _ _ (strContains_right _ _ _ (strContains_right _ _ _
        (strContains_left _ _ _ (dumpsItems_contains x (a :: rest) 1 hx))))
  · intro c hc
    have h1 : ¬ c = '"' := fun h => absurd (h ▸ hc) (by decide)
    have h2 : ¬ c = '\\' := fun h => absurd (h ▸ hc) (by decide)
    have h3 : ¬ c = '\n' := fun h => absurd (h ▸ hc) (by decide)
    have h4 : ¬ c = '\t' := fun h => absurd (h ▸ hc) (by decide)
    have h5 : ¬ c = '\r' := fun h => absurd (h ▸ hc) (by decide)
    have h6 : ¬ c = '\x08' := fun h => absurd (h ▸ hc) (by decide)
    have h7 : ¬ c = '\x0c' := fun h => absurd (h ▸ hc) (by decide)
    have h8 : ¬ c.toNat < 32 := by omega
    simp [escapeChar, h1, h2, h3, h4, h5, h6, h7, h8]

/-- Witness for C5 on spec Scenario 2: the single-agent response body. -/
theorem list_agents_success_witness :
    (list_agents authOK (Except.ok respAgents)).output = Json.dumps2 agentsItems 0 :=
  (list_agents_success authOK (Except.ok respAgents) respAgents agentsJson
    (Json.obj [("affected_items", agentsItems)]) agentsItems rfl rfl rfl rfl rfl rfl).1

/-- C6: for every 200 status response whose body has a `data` mapping,
`get_infrastructure_status` returns the fixed report label followed by
the serialized mapping, and when the mapping is an object the output
contains every counter entry (quoted key, separator, serialized value). -/
theorem infrastructure_status_success (auth q : HttpOutcome) (resp : Response) (body d : Json)
    (htok : Json.truthy (get_token auth) = true)
    (hq : q = Except.ok resp) (h200 : resp.status_code = 200)
    (hjson : resp.json = Except.ok body)
    (hdata : Json.get body "data" (Json.obj []) = Except.ok d) :
    (get_infrastructure_status auth q).output = "【資安態勢報告】\n" ++ Json.dumps2 d 0
    ∧ (∀ ps, d = Json.obj ps → ∀ p ∈ ps,
        strContains (get_infrastructure_status auth q).output
          ("\"" ++ escapeString p.1 ++ "\": " ++ Json.dumps2 p.2 1)) := by
  subst hq
  have h1 : (get_infrastructure_status auth (Except.ok resp)).output
      = "【資安態勢報告】\n" ++ Json.dumps2 d 0 := by
    simp [get_infrastructure_status, htok, statusQuery, h200, hjson, hdata]
  refine ⟨h1, ?_⟩
  rintro ps rfl p hp
  obtain ⟨k, v⟩ := p
  rw [h1]
  rcases ps with _ | ⟨a, rest⟩
  · exact absurd hp (List.not_mem_nil (k, v))
  · show strContains
      ("【資安態勢報告】\n" ++ ("\x7b\n" ++ dumpsPairs (a :: rest) 1 ++ "\n" ++ indentStr 0 ++ "\x7d"))
      ("\"" ++ escapeString k ++ "\": " ++ Json.dumps2 v 1)
    refine strContains_left _ _ _ ?_
    exact strContains_right _ _ _ (strContains_right _ _ _ (strContains_right _ _ _
      (strContains_left _ _ _ (dumpsPairs_contains k v (a :: rest) 1 hp))))

/-- Witness for C6 on spec Scenario 4: the Active/Disconnected counters. -/
theorem infrastructure_status_success_witness :
    (get_infrastructure_status authOK (Except.ok respSummary)).output
        = "【資安態勢報告】\n" ++ Json.dumps2 summaryCounters 0
    ∧ strContains (get_infrastructure_status authOK (Except.ok respSummary)).output
        ("\"" ++ escapeString "Active" ++ "\": " ++ Json.dumps2 (Json.num 5) 1)
    ∧ strContains (get_infrastructure_status authOK (Except.ok respSummary)).output
        ("\"" ++ escapeString "Disconnected" ++ "\": " ++ Json.dumps2 (Json.num 1) 1) :=
  ⟨(infrastructure_status_success authOK (Except.ok respSummary) respSummary summaryJson
      summaryCounters rfl rfl rfl rfl rfl).1,
   (infrastructure_status_success authOK (Except.ok respSummary) respSummary summaryJson
      summaryCounters rfl rfl rfl rfl rfl).2
      [("Active", Json.num 5), ("Disconnected", Json.num 1)] rfl
      ("Active", Json.num 5) (List.mem_cons_self _ _),
   (infrastructure_status_success authOK (Except.ok respSummary) respSummary summaryJson
      summaryCounters rfl rfl rfl rfl rfl).2
      [("Active", Json.num 5), ("Disconnected", Json.num 1)] rfl
      ("Disconnected", Json.num 1) (List.mem_cons_of_mem _ (List.mem_cons_self _ _))⟩

/-- C7: two sequential `list_agents` calls against an unchanged upstream
state (the same authentication outcome and the same query outcome on both
calls) return identical output strings; the embedded tool is a pure
function of the upstream outcomes of its own invocation, reflecting that
the source threads no mutable state between invocations. -/
theorem list_agents_idempotent (a1 q1 a2 q2 : HttpOutcome)
    (ha : a1 = a2) (hq : q1 = q2) :
    (list_agents a1 q1).output = (list_agents a2 q2).output := by
  subst ha
  subst hq
  rfl

/-- Witness for C7 at the Scenario 2 upstream state. -/
theorem list_agents_idempotent_witness :
    (list_agents authOK (Except.ok respAgents)).output
      = (list_agents authOK (Except.ok respAgents)).output :=
  list_agents_idempotent authOK (Except.ok respAgents) authOK (Except.ok respAgents) rfl rfl

/-- C8: the authentication call is issued with `timeout=5`, and that is
the only bounded-wait guarantee: the downstream query calls of both tools
are issued with no timeout argument. -/
theorem timeout_bounds (host port : String) :
    (authRequest host port).timeout = some 5
    ∧ (agentsRequest host port).timeout = none
    ∧ (statusRequest host port).timeout = none :=
  ⟨rfl, rfl, rfl⟩

/-- When `list_agents` issues a downstream call at all, the bearer token
it attaches is exactly the token its own authentication call produced. -/
theorem list_agents_token_shape (a q : HttpOutcome) :
    (list_agents a q).downstreamToken = none
    ∨ (list_agents a q).downstreamToken = some (get_token a) := by
  cases h : Json.truthy (get_token a)
  · left
    simp [list_agents, h]
  · right
    simp [list_agents, h]

/-- When `get_infrastructure_status` issues a downstream call at all, the
bearer token it attaches is the token of its own authentication call. -/
theorem status_token_shape (a q : HttpOutcome) :
    (get_infrastructure_status a q).downstreamToken = none
    ∨ (get_infrastructure_status a q).downstreamToken = some (get_token a) := by
  cases h : Json.truthy (get_token a)
  · left
    simp [get_infrastructure_status, h]
  · right
    simp [get_infrastructure_status, h]

/-- C9: every invocation acquires its own fresh token immediately before
its single downstream call and uses only that token: the downstream call
of either tool, when made, carries exactly `get_token` of that
invocation, so two invocations whose acquisitions differ never share a
downstream token. -/
theorem token_freshness (a1 q1 a2 q2 : HttpOutcome) :
    ((list_agents a1 q1).downstreamToken = none
      ∨ (list_agents a1 q1).downstreamToken = some (get_token a1))
    ∧ ((get_infrastructure_status a2 q2).downstreamToken = none
      ∨ (get_infrastructure_status a2 q2).downstreamToken = some (get_token a2))
    ∧ (∀ t1 t2, (list_agents a1 q1).downstreamToken = some t1 →
        (get_infrastructure_status a2 q2).downstreamToken = some t2 →
        get_token a1 ≠ get_token a2 → t1 ≠ t2) := by
  refine ⟨list_agents_token_shape a1 q1, status_token_shape a2 q2, ?_⟩
  intro t1 t2 h1 h2 hne
  rcases list_agents_token_shape a1 q1 with h | h
  · rw [h1] at h
    exact absurd h (by simp)
  · rcases status_token_shape a2 q2 with g | g
    · rw [h2] at g
      exact absurd g (by simp)
    · have e1 : t1 = get_token a1 := by
        rw [h1] at h
        exact Option.some.inj h
      have e2 : t2 = get_token a2 := by
        rw [h2] at g
        exact Option.some.inj g
      rw [e1, e2]
      exact hne

/-- Witness for C9: two invocations whose authentications yielded the
distinct tokens `abc123` and `zzz999` use distinct downstream tokens. -/
theorem token_freshness_witness : Json.str "abc123" ≠ Json.str "zzz999" :=
  (token_freshness authOK (Except.ok respAgents) authOK2 (Except.ok respSummary)).2.2
    (Json.str "abc123") (Json.str "zzz999") rfl rfl
    (fun h => absurd (Json.str.inj h) (by decide))

/-- C10: a 200 query response whose JSON object lacks the `data` field
(or, for `list_agents`, whose `data` object lacks `affected_items`)
silently falls back to an empty value: `list_agents` returns the
serialization of the empty list and `get_infrastructure_status` returns
its report label followed by the serialization of the empty mapping. -/
theorem missing_field_fallback (auth q : HttpOutcome)
    (htok : Json.truthy (get_token auth) = true) :
    (∀ resp l, q = Except.ok resp → resp.status_code = 200 →
        resp.json = Except.ok (Json.obj l) → List.lookup "data" l = none →
        (list_agents auth q).output = "[]"
        ∧ (get_infrastructure_status auth q).output = "【資安態勢報告】\n\x7b\x7d")
    ∧ (∀ resp l d, q = Except.ok resp → resp.status_code = 200 →
        resp.json = Except.ok (Json.obj l) → List.lookup "data" l = some (Json.obj d) →
        List.lookup "affected_items" d = none →
        (list_agents auth q).output = "[]") := by
  constructor
  · rintro resp l rfl h200 hj hnd
    constructor
    · simp [list_agents, htok, listAgentsQuery, h200, hj, Json.get, hnd, Json.dumps2]
    · simp [get_infrastructure_status, htok, statusQuery, h200, hj, Json.get, hnd, Json.dumps2]
  · rintro resp l d rfl h200 hj hd hni
    simp [list_agents, htok, listAgentsQuery, h200, hj, Json.get, hd, hni, Json.dumps2]

/-- Witness for C10: one 200 body without `data`, and one whose `data`
object has no `affected_items`. -/
theorem missing_field_fallback_witness :
    ((list_agents authOK (Except.ok respNoData)).output = "[]"
      ∧ (get_infrastructure_status authOK (Except.ok respNoData)).output
          = "【資安態勢報告】\n\x7b\x7d")
    ∧ (list_agents authOK (Except.ok respNoItems)).output = "[]" :=
  ⟨(missing_field_fallback authOK (Except.ok respNoData) rfl).1 respNoData
      [("message", Json.str "hi")] rfl rfl rfl rfl,
   (missing_field_fallback authOK (Except.ok respNoItems) rfl).2 respNoItems
      [("data", Json.obj [("total", Json.num 0)])] [("total", Json.num 0)]
      rfl rfl rfl rfl rfl⟩

end WazuhMCP
